import Mathlib

/-!
# Shallow embedding of `pg_timeout.c` (pierreforstmann/pg_timeout)

`pg_timeout` is a PostgreSQL background worker.  Its single translation unit
`src/pg_timeout.c` installs SIGHUP/SIGTERM handlers that only set flags,
connects to the fixed database `"postgres"`, builds two SQL strings once
(before the main loop) from the GUC `pg_timeout.idle_session_timeout`, and
then loops: wait on the latch with timeout `pg_timeout.naptime`, handle
postmaster death, process a pending SIGHUP by reloading the configuration,
run the select query in a fresh transaction, log each returned row, and,
when at least one row was returned, run the terminate query.

The embedding below models:
  * the two query strings (`buf_select` / `buf_kill`, lines 121-138);
  * the SQL `WHERE` clause of both queries as a row predicate over a
    registry of `pg_stat_activity` rows (SQL three-valued logic: a row with
    a null field compared in the `WHERE` clause is never selected);
  * the per-row logging code of the result loop (lines 214-255), including
    the assignment at lines 243-244 that writes the placeholder into
    `client_hostname_val` when `application_name_val` is null;
  * the whole main loop (lines 143-280) as a function from a worker state
    and a list of per-cycle external inputs (signals, postmaster death,
    configuration file contents, SPI results) to a trace of observable
    events and a final outcome.
-/

set_option maxRecDepth 4000

namespace PgTimeout

/-- `static char *null_value="NULL";` (line 54). -/
def null_value : String := "NULL"

/-- `worker.bgw_name`, set to `"pg_timeout_worker"` in `_PG_init` (line 331);
`MyBgworkerEntry->bgw_name` in the log calls of `pg_timeout_main`. -/
def bgw_name : String := "pg_timeout_worker"

/-- First argument of `BackgroundWorkerInitializeConnection` (lines 107/109):
the database the worker connects to. -/
def connection_database : String := "postgres"

/-- Second argument of `BackgroundWorkerInitializeConnection` (lines 107/109):
the role name, passed as `NULL`. -/
def connection_username : Option String := none

/-- The string built into `buf_select` (lines 121-129): the format string with
`%d` replaced by the current value of `pg_timeout_idle_session_timeout`. -/
def selectQuery (timeout : Int) : String :=
  "SELECT pid, usename, datname, application_name, client_hostname " ++
  "FROM pg_stat_activity " ++
  "WHERE pid <> pg_backend_pid() " ++
  "AND state = 'idle' " ++
  "AND state_change < current_timestamp - INTERVAL '" ++ toString timeout ++
  "' SECOND"

/-- The string built into `buf_kill` (lines 130-138). -/
def killQuery (timeout : Int) : String :=
  "SELECT pg_terminate_backend(pid) " ++
  "FROM pg_stat_activity " ++
  "WHERE pid <> pg_backend_pid() " ++
  "AND state = 'idle' " ++
  "AND state_change < current_timestamp - INTERVAL '" ++ toString timeout ++
  "' SECOND"

/-- One row of the `pg_stat_activity` view, restricted to the columns the two
queries read.  Every column is nullable; `state` and `state_change` are null
for background workers on PG 10+ (comment at lines 116-119).  Timestamps are
integers (seconds of some epoch). -/
structure ActivityRow where
  pid : Option Int
  usename : Option String
  datname : Option String
  application_name : Option String
  client_hostname : Option String
  state : Option String
  state_change : Option Int
deriving Repr, DecidableEq

/-- The `WHERE` clause of `buf_select`:
`pid <> pg_backend_pid() AND state = 'idle' AND
 state_change < current_timestamp - INTERVAL 'timeout' SECOND`.
SQL comparisons against a null column yield unknown, and `WHERE` keeps only
rows evaluating to true, so a null in a compared column rejects the row. -/
def selectWhere (myPid now timeout : Int) (r : ActivityRow) : Bool :=
  (match r.pid with
   | some p => decide (p ≠ myPid)
   | none => false) &&
  (match r.state with
   | some s => s == "idle"
   | none => false) &&
  (match r.state_change with
   | some t => decide (t < now - timeout)
   | none => false)

/-- The `WHERE` clause of `buf_kill` (lines 134-136), transcribed separately:
it is textually the same filter as the one of `buf_select`. -/
def killWhere (myPid now timeout : Int) (r : ActivityRow) : Bool :=
  (match r.pid with
   | some p => decide (p ≠ myPid)
   | none => false) &&
  (match r.state with
   | some s => s == "idle"
   | none => false) &&
  (match r.state_change with
   | some t => decide (t < now - timeout)
   | none => false)

/-- Semantics of executing `buf_select` against a registry snapshot:
the rows of `pg_stat_activity` satisfying the `WHERE` clause, where `myPid`
is the worker's own backend pid (`pg_backend_pid()`) and `now` is
`current_timestamp`. -/
def runSelectQuery (myPid now timeout : Int) (registry : List ActivityRow) :
    List ActivityRow :=
  registry.filter (selectWhere myPid now timeout)

/-- Semantics of the row set `pg_terminate_backend` is applied to by
`buf_kill`: the rows satisfying its `WHERE` clause. -/
def runKillQuery (myPid now timeout : Int) (registry : List ActivityRow) :
    List ActivityRow :=
  registry.filter (killWhere myPid now timeout)

/-- Observable events of one worker run: latch waits, transaction
boundaries, query executions (with the exact query string passed to
`SPI_execute`), per-row log lines, the null-pid warning, and the
termination summary line. `logSession` carries the values handed to the
`elog(LOG, LOG_MESSAGE, ...)` call; a `none` field models passing the null
pointer `SPI_getvalue` returned for a null column. -/
inductive Event where
  | waitLatch : Event
  | startTransaction : Event
  | execSelect (query : String) : Event
  | logSession (worker : String) (pid : Int)
      (user db app host : Option String) : Event
  | warnNullPid (worker : String) : Event
  | execKill (query : String) : Event
  | logTerminated (worker : String) (timeout : Int) : Event
  | commitTransaction : Event
deriving Repr, DecidableEq

/-- Result of one `SPI_execute` call: `selectOk rows` models return code
`SPI_OK_SELECT` with `SPI_processed = rows.length` and `SPI_tuptable`
holding `rows`; `error code` models any other return code. -/
inductive SpiResult where
  | selectOk (rows : List ActivityRow) : SpiResult
  | error (code : Int) : SpiResult
deriving Repr, DecidableEq

/-- Body of the result loop for one row `i` (lines 214-255): read `pid`; if
it is null, warn and skip; otherwise fetch the four text columns and apply
the null replacements of lines 239-246 exactly as written — note that line
243-244 tests `application_name_val` but assigns `client_hostname_val` —
then emit the `LOG_MESSAGE` line. -/
def processRow (r : ActivityRow) : Event :=
  match r.pid with
  | none => Event.warnNullPid bgw_name
  | some pid_val =>
    let usename_val := r.usename
    let datname_val := r.datname
    let application_name_val := r.application_name
    let client_hostname_val := r.client_hostname
    let usename_val :=
      if usename_val = none then some null_value else usename_val
    let datname_val :=
      if datname_val = none then some null_value else datname_val
    let client_hostname_val :=
      if application_name_val = none then some null_value
      else client_hostname_val
    let client_hostname_val :=
      if client_hostname_val = none then some null_value
      else client_hostname_val
    Event.logSession bgw_name pid_val usename_val datname_val
      application_name_val client_hostname_val

/-- The whole result loop `for (i = 0; i < nr; i++)` (lines 214-255): one
event per returned row, in order. -/
def processRows (rows : List ActivityRow) : List Event :=
  rows.map processRow

/-- Worker-global state across loop iterations: the two signal flags
(`got_sighup`, `got_sigterm`, lines 42-43), the GUC variable
`pg_timeout_idle_session_timeout` (line 50), and the two query buffers
built before the loop (`buf_select`, `buf_kill`), which no code inside the
loop ever rewrites. -/
structure WorkerState where
  got_sighup : Bool
  got_sigterm : Bool
  idle_session_timeout : Int
  buf_select : String
  buf_kill : String
deriving Repr, DecidableEq

/-- The initialization part of `pg_timeout_main` (lines 88-138): flags
start false, and both query buffers are built once from the current value
`timeout0` of `pg_timeout_idle_session_timeout`. -/
def initWorker (timeout0 : Int) : WorkerState :=
  { got_sighup := false
    got_sigterm := false
    idle_session_timeout := timeout0
    buf_select := selectQuery timeout0
    buf_kill := killQuery timeout0 }

/-- External input consumed by one loop iteration: whether SIGTERM and/or
SIGHUP handlers ran while the worker was blocked in `WaitLatch`, whether
`WL_POSTMASTER_DEATH` was reported, the `idle_session_timeout` value the
configuration file holds (installed into the GUC by `ProcessConfigFile`
when a SIGHUP is pending), and the results of the two `SPI_execute`
calls. -/
structure CycleInput where
  sigtermDuringWait : Bool
  sighupDuringWait : Bool
  postmasterDeath : Bool
  configFileTimeout : Int
  selectResult : SpiResult
  killResult : SpiResult
deriving Repr, DecidableEq

/-- Outcome of one loop-body execution. `procExit` is `proc_exit` (line
170), `fatal` is `elog(FATAL, ...)` (lines 209, 261), which logs the
message and aborts the process, and `next` continues the loop. -/
inductive StepResult where
  | procExit (code : Int) : StepResult
  | fatal (msg : String) : StepResult
  | next (s : WorkerState) : StepResult
deriving Repr, DecidableEq

/-- State after `WaitLatch`/`ResetLatch` (lines 157-166): the signal
handlers that ran during the wait have set their flags (lines 65, 81);
nothing else changed. -/
def latchWaitState (s : WorkerState) (inp : CycleInput) : WorkerState :=
  { s with
    got_sigterm := s.got_sigterm || inp.sigtermDuringWait
    got_sighup := s.got_sighup || inp.sighupDuringWait }

/-- State after the SIGHUP check (lines 177-181): a pending SIGHUP is
cleared and `ProcessConfigFile` installs the configuration file's value
into the GUC `pg_timeout_idle_session_timeout`; the query buffers are not
touched. -/
def sighupState (s : WorkerState) (inp : CycleInput) : WorkerState :=
  if (latchWaitState s inp).got_sighup then
    { latchWaitState s inp with
      got_sighup := false
      idle_session_timeout := inp.configFileTimeout }
  else latchWaitState s inp

/-- One execution of the loop body (lines 144-277), entered after the
`while (!got_sigterm)` test passed.  The signal handlers may run during
`WaitLatch`, setting flags; `CHECK_FOR_INTERRUPTS()` is a no-op here since
the installed handlers set no interrupt-pending state; a pending SIGHUP
reloads the GUC from the configuration file but rebuilds neither query
buffer; then the transaction runs the cached `buf_select`, the result loop
logs rows, and `buf_kill` runs only when `nr > 0`. -/
def cycleBody (s : WorkerState) (inp : CycleInput) : List Event × StepResult :=
  if inp.postmasterDeath then
    ([Event.waitLatch], StepResult.procExit 1)
  else
    let s2 : WorkerState := sighupState s inp
    let ev0 : List Event :=
      [Event.waitLatch, Event.startTransaction, Event.execSelect s2.buf_select]
    match inp.selectResult with
    | SpiResult.error code =>
      (ev0,
       StepResult.fatal
         ("cannot select from pg_stat_activity: error code " ++ toString code))
    | SpiResult.selectOk rows =>
      let ev1 := ev0 ++ processRows rows
      if rows.length > 0 then
        let ev2 := ev1 ++ [Event.execKill s2.buf_kill]
        match inp.killResult with
        | SpiResult.error code =>
          (ev2,
           StepResult.fatal
             ("cannot select pg_terminate_backend: error code " ++
              toString code))
        | SpiResult.selectOk _ =>
          (ev2 ++
             [Event.logTerminated bgw_name s2.idle_session_timeout,
              Event.commitTransaction],
           StepResult.next s2)
      else
        (ev1 ++ [Event.commitTransaction], StepResult.next s2)

/-- Final outcome of a run: the process exited via `proc_exit`, aborted via
`elog(FATAL, ...)`, or is still looping after consuming all supplied
inputs. -/
inductive RunResult where
  | exited (code : Int) : RunResult
  | fatal (msg : String) : RunResult
  | running (s : WorkerState) : RunResult
deriving Repr, DecidableEq

/-- The main loop `while (!got_sigterm) { ... }` followed by `proc_exit(1)`
(lines 143-279): the termination flag is tested before each iteration; when
it is set the loop exits and the process terminates with exit status 1. -/
def runLoop (s : WorkerState) : List CycleInput → List Event × RunResult
  | [] =>
    if s.got_sigterm then ([], RunResult.exited 1) else ([], RunResult.running s)
  | inp :: rest =>
    if s.got_sigterm then ([], RunResult.exited 1)
    else
      match cycleBody s inp with
      | (evs, StepResult.procExit c) => (evs, RunResult.exited c)
      | (evs, StepResult.fatal m) => (evs, RunResult.fatal m)
      | (evs, StepResult.next s2) =>
        let p := runLoop s2 rest
        (evs ++ p.1, p.2)

/-- `pg_timeout_main` as a whole: initialize (connect, build the two query
buffers from the startup value `timeout0` of
`pg_timeout_idle_session_timeout`) and run the main loop on the given
per-cycle inputs. -/
def pg_timeout_main (timeout0 : Int) (inputs : List CycleInput) :
    List Event × RunResult :=
  runLoop (initWorker timeout0) inputs

/-! ## Concrete rows and inputs used by witnesses and counterexamples -/

/-- A registry row whose `application_name` is null but whose
`client_hostname` is present. -/
def rowNullApp : ActivityRow :=
  { pid := some 123, usename := some "alice", datname := some "app"
    application_name := none, client_hostname := some "host1"
    state := some "idle", state_change := some 0 }

/-- A registry row with null `usename`, `application_name` and
`client_hostname`. -/
def rowBareApp : ActivityRow :=
  { pid := some 77, usename := none, datname := some "db2"
    application_name := none, client_hostname := none
    state := some "idle", state_change := some 5 }

/-- A fully populated idle row. -/
def rowIdle : ActivityRow :=
  { pid := some 101, usename := some "bob", datname := some "sales"
    application_name := some "psql", client_hostname := some "client9"
    state := some "idle", state_change := some 100 }

/-- A row whose `pid` column is null. -/
def rowNullPid : ActivityRow :=
  { pid := none, usename := some "carol", datname := some "hr"
    application_name := some "app2", client_hostname := none
    state := some "idle", state_change := some 50 }

/-! ## Helper lemmas -/

/-- The result loop emits only per-session log lines and null-pid
warnings. -/
theorem mem_processRows_cases (e : Event) (rows : List ActivityRow)
    (he : e ∈ processRows rows) :
    (∃ p u d a h, e = Event.logSession bgw_name p u d a h) ∨
      e = Event.warnNullPid bgw_name := by
  simp only [processRows, List.mem_map] at he
  obtain ⟨r, -, hr⟩ := he
  cases hp : r.pid with
  | none =>
    right
    simp [processRow, hp] at hr
    exact hr.symm
  | some p =>
    left
    simp only [processRow, hp] at hr
    exact ⟨p, _, _, _, _, hr.symm⟩

/-- No `execKill` event is emitted by the result loop. -/
theorem execKill_not_mem_processRows (q : String) (rows : List ActivityRow) :
    Event.execKill q ∉ processRows rows := by
  intro he
  rcases mem_processRows_cases _ _ he with ⟨p, u, d, a, h, hc⟩ | hc <;>
    exact Event.noConfusion hc

/-- No `execSelect` event is emitted by the result loop. -/
theorem execSelect_not_mem_processRows (q : String) (rows : List ActivityRow) :
    Event.execSelect q ∉ processRows rows := by
  intro he
  rcases mem_processRows_cases _ _ he with ⟨p, u, d, a, h, hc⟩ | hc <;>
    exact Event.noConfusion hc

/-- No termination-summary event is emitted by the result loop. -/
theorem logTerminated_not_mem_processRows (w : String) (t : Int)
    (rows : List ActivityRow) :
    Event.logTerminated w t ∉ processRows rows := by
  intro he
  rcases mem_processRows_cases _ _ he with ⟨p, u, d, a, h, hc⟩ | hc <;>
    exact Event.noConfusion hc

/-- The SIGHUP handling never touches `buf_select`. -/
theorem sighupState_buf_select (s : WorkerState) (inp : CycleInput) :
    (sighupState s inp).buf_select = s.buf_select := by
  unfold sighupState latchWaitState
  split <;> rfl

/-- The SIGHUP handling never touches `buf_kill`. -/
theorem sighupState_buf_kill (s : WorkerState) (inp : CycleInput) :
    (sighupState s inp).buf_kill = s.buf_kill := by
  unfold sighupState latchWaitState
  split <;> rfl

/-- The SIGHUP handling never touches `got_sigterm`: after the wait it is
set iff it was set before or SIGTERM arrived during the wait. -/
theorem sighupState_got_sigterm (s : WorkerState) (inp : CycleInput) :
    (sighupState s inp).got_sigterm =
      (s.got_sigterm || inp.sigtermDuringWait) := by
  unfold sighupState latchWaitState
  split <;> rfl

/-- When the loop body hands control back to the loop, the next state is
exactly the post-SIGHUP state: nothing after line 181 writes the worker
state. -/
theorem cycleBody_next (s : WorkerState) (inp : CycleInput) (evs : List Event)
    (s2 : WorkerState) (h : cycleBody s inp = (evs, StepResult.next s2)) :
    s2 = sighupState s inp := by
  unfold cycleBody at h
  split at h
  · simp at h
  · split at h
    · simp at h
    · split at h
      · split at h
        · simp at h
        · simp at h
          exact h.2.symm
      · simp at h
        exact h.2.symm

/-! ## Claims -/

/-- Claim C3 (code_bug): the claim says every null field among user,
database, application-name and client-hostname is rendered as the literal
`"NULL"`.  At a row whose `application_name` is null and whose
`client_hostname` is `"host1"`, the code instead logs the application-name
field as a propagated null (the null pointer goes straight into the
format string) and overwrites the present hostname with the placeholder:
lines 243-244 test `application_name_val` but assign
`client_hostname_val`. -/
theorem C3_null_application_not_rendered_as_placeholder :
    rowNullApp.application_name = none ∧
    rowNullApp.client_hostname = some "host1" ∧
    processRow rowNullApp =
      Event.logSession bgw_name 123 (some "alice") (some "app") none
        (some "NULL") := by
  refine ⟨rfl, rfl, ?_⟩
  rfl

/-- Claim C4 (confirmed): for every processed row whose `application_name`
is null (and whose pid is present), the placeholder is assigned to the
client-hostname variable, the application-name variable stays null, and the
logged hostname field is the placeholder regardless of the row's actual
hostname. -/
theorem C4_null_application_assigns_placeholder_to_hostname
    (r : ActivityRow) (p : Int) (hp : r.pid = some p)
    (happ : r.application_name = none) :
    processRow r =
      Event.logSession bgw_name p
        (if r.usename = none then some null_value else r.usename)
        (if r.datname = none then some null_value else r.datname)
        none (some null_value) := by
  obtain ⟨pid, u, d, a, h, st, sc⟩ := r
  simp only at hp happ
  subst hp
  subst happ
  simp [processRow]

/-- Witness for C4 at the concrete row `rowBareApp`. -/
theorem C4_null_application_assigns_placeholder_to_hostname_witness :
    processRow rowBareApp =
      Event.logSession bgw_name 77 (some "NULL") (some "db2") none
        (some "NULL") := by
  have h :=
    C4_null_application_assigns_placeholder_to_hostname rowBareApp 77 rfl rfl
  simpa [rowBareApp, null_value] using h

/-- Claim C7 (confirmed): a result row with a null pid produces exactly the
one warning event (no informational line for it), the rows around it are
processed normally, and the cycle goes on to a normal next state (given the
SPI calls succeed), so the null pid is not fatal. -/
theorem C7_null_pid_row_warns_and_cycle_continues
    (rows1 rows2 : List ActivityRow) (r : ActivityRow) (hr : r.pid = none)
    (s : WorkerState) (inp : CycleInput) (krows : List ActivityRow)
    (hpd : inp.postmasterDeath = false)
    (hsel : inp.selectResult = SpiResult.selectOk (rows1 ++ r :: rows2))
    (hkill : inp.killResult = SpiResult.selectOk krows) :
    processRow r = Event.warnNullPid bgw_name ∧
    processRows (rows1 ++ r :: rows2) =
      processRows rows1 ++ Event.warnNullPid bgw_name :: processRows rows2 ∧
    ∃ s2, (cycleBody s inp).2 = StepResult.next s2 := by
  have h1 : processRow r = Event.warnNullPid bgw_name := by
    simp [processRow, hr]
  refine ⟨h1, ?_, ?_⟩
  · simp [processRows, h1]
  · simp [cycleBody, hpd, hsel, hkill]

/-- Witness for C7: a null-pid row between two normal rows, in a cycle
whose SPI calls succeed. -/
theorem C7_null_pid_row_warns_and_cycle_continues_witness :
    processRows [rowIdle, rowNullPid, rowBareApp] =
      processRows [rowIdle] ++
        Event.warnNullPid bgw_name :: processRows [rowBareApp] := by
  have h :=
    C7_null_pid_row_warns_and_cycle_continues [rowIdle] [rowBareApp]
      rowNullPid rfl (initWorker 60)
      { sigtermDuringWait := false, sighupDuringWait := false
        postmasterDeath := false, configFileTimeout := 60
        selectResult := SpiResult.selectOk [rowIdle, rowNullPid, rowBareApp]
        killResult := SpiResult.selectOk [] }
      [] rfl rfl rfl
  exact h.2.1

/-- Claim C6 (confirmed): a failing select query (`SPI_execute` result not
`SPI_OK_SELECT`) makes the worker log a fatal error and abort: the run ends
right there with the fatal outcome, the terminate query is never executed
in that cycle, and there is no retry.  The terminate query has the same
policy: a non-select-success result aborts the process. -/
theorem C6_query_failure_is_fatal (s : WorkerState) (inp : CycleInput)
    (rest : List CycleInput) (code : Int)
    (hpd : inp.postmasterDeath = false) (hsig : s.got_sigterm = false) :
    (inp.selectResult = SpiResult.error code →
       runLoop s (inp :: rest) =
         ([Event.waitLatch, Event.startTransaction,
           Event.execSelect s.buf_select],
          RunResult.fatal
            ("cannot select from pg_stat_activity: error code " ++
             toString code)) ∧
       ∀ q, Event.execKill q ∉ (runLoop s (inp :: rest)).1) ∧
    (∀ rows, inp.selectResult = SpiResult.selectOk rows → rows ≠ [] →
       inp.killResult = SpiResult.error code →
       (runLoop s (inp :: rest)).2 =
         RunResult.fatal
           ("cannot select pg_terminate_backend: error code " ++
            toString code)) := by
  constructor
  · intro hsel
    have hcb : cycleBody s inp =
        ([Event.waitLatch, Event.startTransaction,
          Event.execSelect s.buf_select],
         StepResult.fatal
           ("cannot select from pg_stat_activity: error code " ++
            toString code)) := by
      simp [cycleBody, hpd, hsel, sighupState_buf_select]
    have hrun : runLoop s (inp :: rest) =
        ([Event.waitLatch, Event.startTransaction,
          Event.execSelect s.buf_select],
         RunResult.fatal
           ("cannot select from pg_stat_activity: error code " ++
            toString code)) := by
      simp [runLoop, hsig, hcb]
    refine ⟨hrun, ?_⟩
    intro q
    rw [hrun]
    simp
  · intro rows hsel hne hkill
    have hlen : 0 < rows.length := List.length_pos.mpr hne
    have hcb : cycleBody s inp =
        ([Event.waitLatch, Event.startTransaction,
          Event.execSelect s.buf_select] ++
           processRows rows ++ [Event.execKill s.buf_kill],
         StepResult.fatal
           ("cannot select pg_terminate_backend: error code " ++
            toString code)) := by
      simp [cycleBody, hpd, hsel, hkill, hlen, sighupState_buf_select,
        sighupState_buf_kill]
    simp [runLoop, hsig, hcb]

/-- Input for the C6 witness: the select query fails with code 11. -/
def inpSelectFails : CycleInput :=
  { sigtermDuringWait := false, sighupDuringWait := false
    postmasterDeath := false, configFileTimeout := 60
    selectResult := SpiResult.error 11
    killResult := SpiResult.selectOk [] }

/-- Witness for C6: a concrete run whose select query fails aborts with the
fatal outcome and the three-event trace. -/
theorem C6_query_failure_is_fatal_witness :
    runLoop (initWorker 60) [inpSelectFails] =
      ([Event.waitLatch, Event.startTransaction,
        Event.execSelect (initWorker 60).buf_select],
       RunResult.fatal
         ("cannot select from pg_stat_activity: error code " ++
          toString (11 : Int))) := by
  exact
    ((C6_query_failure_is_fatal (initWorker 60) inpSelectFails [] 11 rfl
        rfl).1 rfl).1

/-- Claim C8 (confirmed): within one cycle whose select succeeds, the
terminate query is executed exactly when the select returned at least one
row; with zero rows neither a terminate execution nor a termination summary
line appears in the cycle's trace. -/
theorem C8_terminate_exactly_when_rows (s : WorkerState) (inp : CycleInput)
    (rows : List ActivityRow) (hpd : inp.postmasterDeath = false)
    (hsel : inp.selectResult = SpiResult.selectOk rows) :
    ((∃ q, Event.execKill q ∈ (cycleBody s inp).1) ↔ rows ≠ []) ∧
    (rows = [] →
       (∀ q, Event.execKill q ∉ (cycleBody s inp).1) ∧
       (∀ w t, Event.logTerminated w t ∉ (cycleBody s inp).1)) := by
  have hempty : rows = [] →
      cycleBody s inp =
        ([Event.waitLatch, Event.startTransaction,
          Event.execSelect (sighupState s inp).buf_select,
          Event.commitTransaction],
         StepResult.next (sighupState s inp)) := by
    rintro rfl
    simp [cycleBody, hpd, hsel, processRows]
  constructor
  · constructor
    · rintro ⟨q, hq⟩ rfl
      rw [hempty rfl] at hq
      simp at hq
    · intro hne
      have hlen : 0 < rows.length := List.length_pos.mpr hne
      refine ⟨(sighupState s inp).buf_kill, ?_⟩
      rcases hk : inp.killResult with krows | kcode <;>
        simp [cycleBody, hpd, hsel, hk, hlen]
  · intro h0
    rw [hempty h0]
    constructor
    · intro q
      simp
    · intro w t
      simp

/-- Input for the C8 witness: the select query returns zero rows. -/
def inpNoRows : CycleInput :=
  { sigtermDuringWait := false, sighupDuringWait := false
    postmasterDeath := false, configFileTimeout := 60
    selectResult := SpiResult.selectOk []
    killResult := SpiResult.selectOk [] }

/-- Witness for C8: in a concrete zero-row cycle the terminate query string
is never executed. -/
theorem C8_terminate_exactly_when_rows_witness :
    Event.execKill (killQuery 60) ∉
      (cycleBody (initWorker 60) inpNoRows).1 := by
  exact
    ((C8_terminate_exactly_when_rows (initWorker 60) inpNoRows [] rfl
        rfl).2 rfl).1 (killQuery 60)

/-- Input of a cycle during whose latch wait SIGTERM is delivered, and
whose select query returns one row. -/
def inpSigtermDuringWait : CycleInput :=
  { sigtermDuringWait := true, sighupDuringWait := false
    postmasterDeath := false, configFileTimeout := 60
    selectResult := SpiResult.selectOk [rowIdle]
    killResult := SpiResult.selectOk [] }

/-- Claim C2 (corrected), counterexample: the claim says a SIGTERM set
while the worker is blocked on the timer wait makes the loop exit without
starting a new transaction and without executing any further query.  In
the code `got_sigterm` is only tested by the `while` condition (line 143),
before the next wait — not after the wait — so the interrupted iteration
still runs a full transaction with both queries; the process does then
exit with status 1. -/
theorem C2_sigterm_during_wait_runs_full_cycle :
    (pg_timeout_main 60 [inpSigtermDuringWait]).2 = RunResult.exited 1 ∧
    Event.startTransaction ∈ (pg_timeout_main 60 [inpSigtermDuringWait]).1 ∧
    Event.execSelect (selectQuery 60) ∈
      (pg_timeout_main 60 [inpSigtermDuringWait]).1 ∧
    Event.execKill (killQuery 60) ∈
      (pg_timeout_main 60 [inpSigtermDuringWait]).1 := by
  refine ⟨rfl, ?_, ?_, ?_⟩ <;> decide

/-- Claim C2 (amended): a SIGTERM observed at the `while (!got_sigterm)`
test exits the loop at once — no transaction, no query, process exit
status 1; a SIGTERM delivered while blocked in `WaitLatch` lets the
interrupted iteration finish its transaction and queries, after which the
loop condition fails and the process exits with status 1, with no further
cycle. -/
theorem C2_sigterm_exit (s : WorkerState) (inp : CycleInput)
    (rest : List CycleInput) (hterm : inp.sigtermDuringWait = true) :
    (s.got_sigterm = true → runLoop s (inp :: rest) = ([], RunResult.exited 1)) ∧
    (s.got_sigterm = false →
       ∀ evs s2, cycleBody s inp = (evs, StepResult.next s2) →
         runLoop s (inp :: rest) = (evs, RunResult.exited 1)) := by
  constructor
  · intro hsig
    simp [runLoop, hsig]
  · intro hsig evs s2 hcb
    have hs2 : s2.got_sigterm = true := by
      rw [cycleBody_next s inp evs s2 hcb, sighupState_got_sigterm, hsig,
        hterm]
      rfl
    have hrest : runLoop s2 rest = ([], RunResult.exited 1) := by
      cases rest <;> simp [runLoop, hs2]
    simp [runLoop, hsig, hcb, hrest]

/-- Witness for C2 (amended): on the concrete one-cycle run the loop exits
with status 1 immediately after the interrupted cycle. -/
theorem C2_sigterm_exit_witness :
    (runLoop (initWorker 60) [inpSigtermDuringWait]).2 =
      RunResult.exited 1 := by
  have h :=
    (C2_sigterm_exit (initWorker 60) inpSigtermDuringWait [] rfl).2 rfl
      ([Event.waitLatch, Event.startTransaction,
        Event.execSelect (selectQuery 60)] ++
        processRows [rowIdle] ++
        [Event.execKill (killQuery 60), Event.logTerminated bgw_name 60,
         Event.commitTransaction])
      (sighupState (initWorker 60) inpSigtermDuringWait) (by decide)
  rw [h]

/-- Input of a cycle during whose latch wait SIGHUP is delivered; the
configuration file now says `idle_session_timeout = 30`; the select query
returns one row. -/
def inpReload : CycleInput :=
  { sigtermDuringWait := false, sighupDuringWait := true
    postmasterDeath := false, configFileTimeout := 30
    selectResult := SpiResult.selectOk [rowIdle]
    killResult := SpiResult.selectOk [] }

/-- Claim C1 (code_bug): both query buffers are built once, before the
main loop (lines 121-138), and no code in the loop rebuilds them, while
`ProcessConfigFile` (line 180) does update the GUC.  Started with
`idle_session_timeout = 60` and reloaded to `30`, the following cycle
still executes the queries with the stale interval `60` — even though the
same cycle's termination summary line (line 264-266) reports the fresh
value `30` — and never executes the queries built from `30`. -/
theorem C1_reload_leaves_queries_stale :
    Event.execSelect (selectQuery 60) ∈ (pg_timeout_main 60 [inpReload]).1 ∧
    Event.execKill (killQuery 60) ∈ (pg_timeout_main 60 [inpReload]).1 ∧
    Event.logTerminated bgw_name 30 ∈ (pg_timeout_main 60 [inpReload]).1 ∧
    selectQuery 30 ≠ selectQuery 60 ∧
    Event.execSelect (selectQuery 30) ∉ (pg_timeout_main 60 [inpReload]).1 ∧
    Event.execKill (killQuery 30) ∉ (pg_timeout_main 60 [inpReload]).1 := by
  refine ⟨?_, ?_, ?_, ?_, ?_, ?_⟩ <;> decide

/-- The worker's own session: a row carrying the monitor's backend pid. -/
def rowSelf : ActivityRow :=
  { pid := some 999, usename := some "postgres", datname := some "postgres"
    application_name := none, client_hostname := none
    state := some "idle", state_change := some 0 }

/-- An active (non-idle) session. -/
def rowActive : ActivityRow :=
  { pid := some 102, usename := some "dave", datname := some "sales"
    application_name := some "batch", client_hostname := some "client3"
    state := some "active", state_change := some 0 }

/-- Unfolding of the select query's `WHERE` clause: it holds exactly when
all three compared columns are non-null, the pid differs from the
worker's, the state is exactly `idle`, and the state change is older than
now minus the timeout. -/
theorem selectWhere_iff (myPid now timeout : Int) (r : ActivityRow) :
    selectWhere myPid now timeout r = true ↔
      ∃ p s t, r.pid = some p ∧ r.state = some s ∧ r.state_change = some t ∧
        p ≠ myPid ∧ s = "idle" ∧ t < now - timeout := by
  rcases r with ⟨pid, u, d, a, h, st, sc⟩
  rcases pid with _ | p <;> rcases st with _ | st <;> rcases sc with _ | sc <;>
    simp [selectWhere, and_assoc]

/-- The two `WHERE` clauses are the same predicate. -/
theorem killWhere_eq_selectWhere : killWhere = selectWhere := rfl

/-- Claim C5 (confirmed): the select query returns exactly the registry
rows with a non-null pid different from the monitor's own, state exactly
`idle`, and a non-null state change older than now minus
`idle_session_timeout`; the terminate query targets exactly the same row
set; and the monitor's own session is never in the select result. -/
theorem C5_query_selects_exactly_idle_sessions (myPid now timeout : Int)
    (registry : List ActivityRow) :
    (∀ r, r ∈ runSelectQuery myPid now timeout registry ↔
       (r ∈ registry ∧ ∃ p s t, r.pid = some p ∧ r.state = some s ∧
          r.state_change = some t ∧ p ≠ myPid ∧ s = "idle" ∧
          t < now - timeout)) ∧
    runKillQuery myPid now timeout registry =
      runSelectQuery myPid now timeout registry ∧
    (∀ r, r ∈ runSelectQuery myPid now timeout registry →
       r.pid ≠ some myPid) := by
  refine ⟨?_, ?_, ?_⟩
  · intro r
    simp [runSelectQuery, List.mem_filter, selectWhere_iff]
  · rw [runKillQuery, runSelectQuery, killWhere_eq_selectWhere]
  · intro r hr
    rw [runSelectQuery, List.mem_filter, selectWhere_iff] at hr
    obtain ⟨-, p, s, t, hp, -, -, hne, -, -⟩ := hr
    rw [hp]
    simp
    exact hne

/-- Witness for C5 at a concrete registry: the idle-and-old row is
selected, and neither the worker's own row nor the active row is. -/
theorem C5_query_selects_exactly_idle_sessions_witness :
    rowIdle ∈ runSelectQuery 999 200 60 [rowSelf, rowIdle, rowActive] ∧
    rowSelf ∉ runSelectQuery 999 200 60 [rowSelf, rowIdle, rowActive] ∧
    rowActive ∉ runSelectQuery 999 200 60 [rowSelf, rowIdle, rowActive] := by
  have h := C5_query_selects_exactly_idle_sessions 999 200 60
    [rowSelf, rowIdle, rowActive]
  refine ⟨?_, ?_, ?_⟩
  · exact (h.1 rowIdle).mpr
      ⟨by decide, 101, "idle", 100, rfl, rfl, rfl, by decide, rfl, by decide⟩
  · intro hmem
    have := (h.1 rowSelf).mp hmem
    rcases this with ⟨-, p, s, t, hp, -, -, hne, -, -⟩
    exact hne (by cases hp; rfl)
  · intro hmem
    have := (h.1 rowActive).mp hmem
    rcases this with ⟨-, p, s, t, -, hs, -, -, hidle, -⟩
    cases hs
    exact absurd hidle (by decide)

/-- Any `execSelect` event of a cycle carries the cached `buf_select` of
the state the cycle started from. -/
theorem cycleBody_execSelect_eq (s : WorkerState) (inp : CycleInput)
    (q : String) (he : Event.execSelect q ∈ (cycleBody s inp).1) :
    q = s.buf_select := by
  rw [← sighupState_buf_select s inp]
  unfold cycleBody at he
  split at he
  · simp at he
  · split at he
    · simpa using he
    · split at he
      · split at he
        · rcases List.mem_append.mp he with he | he
          · rcases List.mem_append.mp he with he | he
            · simpa using he
            · exact absurd he (execSelect_not_mem_processRows q _)
          · simp at he
        · rcases List.mem_append.mp he with he | he
          · rcases List.mem_append.mp he with he | he
            · rcases List.mem_append.mp he with he | he
              · simpa using he
              · exact absurd he (execSelect_not_mem_processRows q _)
            · simp at he
          · simp at he
      · rcases List.mem_append.mp he with he | he
        · rcases List.mem_append.mp he with he | he
          · simpa using he
          · exact absurd he (execSelect_not_mem_processRows q _)
        · simp at he

/-- Any `execKill` event of a cycle carries the cached `buf_kill` of the
state the cycle started from. -/
theorem cycleBody_execKill_eq (s : WorkerState) (inp : CycleInput)
    (q : String) (he : Event.execKill q ∈ (cycleBody s inp).1) :
    q = s.buf_kill := by
  rw [← sighupState_buf_kill s inp]
  unfold cycleBody at he
  split at he
  · simp at he
  · split at he
    · simp at he
    · split at he
      · split at he
        · rcases List.mem_append.mp he with he | he
          · rcases List.mem_append.mp he with he | he
            · simp at he
            · exact absurd he (execKill_not_mem_processRows q _)
          · simpa using he
        · rcases List.mem_append.mp he with he | he
          · rcases List.mem_append.mp he with he | he
            · rcases List.mem_append.mp he with he | he
              · simp at he
              · exact absurd he (execKill_not_mem_processRows q _)
            · simpa using he
          · simp at he
      · rcases List.mem_append.mp he with he | he
        · rcases List.mem_append.mp he with he | he
          · simp at he
          · exact absurd he (execKill_not_mem_processRows q _)
        · simp at he

/-- Along any run, every executed select query is the string built at
startup from `T`, and every executed terminate query likewise: the loop
never rewrites the two buffers. -/
theorem runLoop_query_events (T : Int) (inps : List CycleInput) :
    ∀ s : WorkerState, s.buf_select = selectQuery T → s.buf_kill = killQuery T →
      ∀ e ∈ (runLoop s inps).1,
        (∀ q, e = Event.execSelect q → q = selectQuery T) ∧
        (∀ q, e = Event.execKill q → q = killQuery T) := by
  induction inps with
  | nil =>
    intro s h1 h2 e he
    rcases hsig : s.got_sigterm <;> simp [runLoop, hsig] at he
  | cons inp rest ih =>
    intro s h1 h2 e he
    rcases hsig : s.got_sigterm with _ | _
    · rcases hcb : cycleBody s inp with ⟨evs, sr⟩
      simp only [runLoop, hsig, Bool.false_eq_true, if_false, hcb] at he
      have hcycle : ∀ e, e ∈ evs →
          (∀ q, e = Event.execSelect q → q = selectQuery T) ∧
          (∀ q, e = Event.execKill q → q = killQuery T) := by
        intro e1 he1
        have he1m : e1 ∈ (cycleBody s inp).1 := by rw [hcb]; exact he1
        constructor
        · rintro q rfl
          rw [cycleBody_execSelect_eq s inp q he1m, h1]
        · rintro q rfl
          rw [cycleBody_execKill_eq s inp q he1m, h2]
      cases sr with
      | procExit c => exact hcycle e he
      | fatal m => exact hcycle e he
      | next s2 =>
        simp only [List.mem_append] at he
        rcases he with he | he
        · exact hcycle e he
        · have hs2 : s2 = sighupState s inp := cycleBody_next s inp evs s2 hcb
          refine ih s2 ?_ ?_ e he
          · rw [hs2, sighupState_buf_select, h1]
          · rw [hs2, sighupState_buf_kill, h2]
    · simp [runLoop, hsig] at he

/-- Claim C9 (confirmed): every select query and every terminate query
ever executed by a run started with `idle_session_timeout = T` is the
corresponding string built from the single startup snapshot `T`; in
particular, within any one cycle, the terminate query embeds exactly the
same idle-window value as the immediately preceding select query. -/
theorem C9_same_snapshot_in_every_cycle (T : Int) (inps : List CycleInput)
    (e : Event) (he : e ∈ (pg_timeout_main T inps).1) :
    (∀ q, e = Event.execSelect q → q = selectQuery T) ∧
    (∀ q, e = Event.execKill q → q = killQuery T) := by
  exact runLoop_query_events T inps (initWorker T) rfl rfl e he

/-- Witness for C9 on a concrete run: the executed terminate query of the
first cycle is the startup-built string. -/
theorem C9_same_snapshot_in_every_cycle_witness :
    Event.execKill (killQuery 60) ∈
      (pg_timeout_main 60 [inpSigtermDuringWait]).1 ∧
    killQuery 60 = killQuery 60 := by
  refine ⟨by decide, ?_⟩
  exact
    (C9_same_snapshot_in_every_cycle 60 [inpSigtermDuringWait]
        (Event.execKill (killQuery 60)) (by decide)).2 (killQuery 60) rfl

/-- Claim C10 (confirmed): the worker connects to the fixed database
`"postgres"` with no role, and neither query's `WHERE` clause reads the
row's database column, so rows of every database satisfy the same
predicate and are inspected and terminated from that one connection. -/
theorem C10_postgres_connection_no_database_filter :
    connection_database = "postgres" ∧ connection_username = none ∧
    (∀ myPid now timeout r db,
       selectWhere myPid now timeout { r with datname := db } =
         selectWhere myPid now timeout r) ∧
    (∀ myPid now timeout r db,
       killWhere myPid now timeout { r with datname := db } =
         killWhere myPid now timeout r) := by
  refine ⟨rfl, rfl, ?_, ?_⟩ <;> intro myPid now timeout r db <;> rfl

end PgTimeout
